import Mathlib

/-!
Shallow embedding of the SGAD auth service core
(src/services/authService.js, src/config/database.js,
src/middleware/authMiddleware.js).

Conventions of the embedding:
* JS `Error` throwing is modelled by `Except String`, the string being the
  thrown message; the service-level try/catch message mapping is applied
  in the same function.
* `Date.now()/1000` is an explicit `now : Nat` parameter (epoch seconds).
* The PostgreSQL `users` table is a `List User`; the SQL queries of
  database.js become `List.find?` with the same WHERE clause.  The
  possibility of the UPDATE of `updateLastLogin` failing (a DB error)
  is modelled by the `lastLoginFails` flag of the store.
* bcrypt is an external collaborator: it is modelled by an abstract hash
  function (`bcryptHash`) together with the comparator that accepts a
  password exactly when the stored hash is the hash of that password.
* jsonwebtoken is modelled by a `Token` carrying its payload and a
  signature string; `jwtVerify` recomputes the signature (`macSign`) and
  enforces expiry exactly like jsonwebtoken (expired when
  `now ≥ payload.exp`), with the `ignoreExpiration` option.
* The env configuration `JWT_SECRET` / `JWT_EXPIRES_IN` is an explicit
  `AuthConfig`; the `'24h'` duration string is modelled by its value in
  seconds (`expiresInSeconds`, default 86400).
-/

deriving instance DecidableEq for Except

/-- JS `String.prototype.toLowerCase()` (executable model over the
character list). -/
def jsToLowerCase (s : String) : String :=
  String.mk (s.data.map Char.toLower)

/-- JS `String.prototype.trim()`: strip leading and trailing whitespace
(executable model over the character list). -/
def jsTrim (s : String) : String :=
  String.mk
    (((s.data.dropWhile Char.isWhitespace).reverse.dropWhile
        Char.isWhitespace).reverse)

/-- A row of the `users` table, with the columns selected by
`findUserByEmail` (database.js): id, email, password_hash, role,
first_name, last_name, phone, is_active, created_at. -/
structure User where
  id : String
  email : String
  password_hash : String
  role : String
  first_name : String
  last_name : String
  phone : String
  is_active : Bool
  created_at : String
deriving Repr, DecidableEq

/-- The projection selected by `findUserById` (database.js): no
`password_hash` and no `created_at` column is selected. -/
structure IdRow where
  id : String
  email : String
  role : String
  first_name : String
  last_name : String
  phone : String
  is_active : Bool
deriving Repr, DecidableEq

def User.toIdRow (u : User) : IdRow :=
  { id := u.id, email := u.email, role := u.role, first_name := u.first_name,
    last_name := u.last_name, phone := u.phone, is_active := u.is_active }

/-- The persistent store: the `users` table plus a flag describing whether
the `UPDATE` issued by `updateLastLogin` fails with a DB error. -/
structure DB where
  users : List User
  lastLoginFails : Bool
deriving Repr

/-- database.js `findUserByEmail`:
`SELECT ... FROM users WHERE email = $1 AND is_active = true`,
returning `result.rows[0] || null`. -/
def findUserByEmail (db : DB) (email : String) : Option User :=
  db.users.find? (fun u => u.email == email && u.is_active)

/-- database.js `findUserById`:
`SELECT ... FROM users WHERE id = $1 AND is_active = true`,
returning `result.rows[0] || null` with the reduced column list. -/
def findUserById (db : DB) (userId : String) : Option IdRow :=
  (db.users.find? (fun u => u.id == userId && u.is_active)).map User.toIdRow

/-- database.js `updateLastLogin`: an `UPDATE` that either succeeds or
throws a DB error (any message other than the service's sentinel ones). -/
def updateLastLogin (db : DB) (_userId : String) : Except String Unit :=
  if db.lastLoginFails then .error "DB_ERROR" else .ok ()

/-- Model of the bcrypt hash of a password (external collaborator). -/
def bcryptHash (password : String) : String :=
  "$2b$10$" ++ password

/-- Model of `bcrypt.compare(password, storedHash)`: true exactly when the
stored hash is the hash of the supplied password. -/
def bcryptCompare (password storedHash : String) : Bool :=
  storedHash == bcryptHash password

/-- The env configuration read at startup by authService.js:
`JWT_SECRET` and `JWT_EXPIRES_IN` (the `'24h'` default is 86400 s). -/
structure AuthConfig where
  secret : String
  expiresInSeconds : Nat
deriving Repr, DecidableEq

/-- The JWT claims set produced by `generateJWT` and `jwt.sign`:
userId, email, role, refereeId, iat, plus exp/iss/aud added by signing. -/
structure Payload where
  userId : String
  email : String
  role : String
  refereeId : Option String
  iat : Nat
  exp : Nat
  iss : String
  aud : String
deriving Repr, DecidableEq

/-- Model of the HMAC signature over header and payload. -/
def macSign (secret : String) (p : Payload) : String :=
  secret ++ "#" ++ p.userId ++ "#" ++ p.email ++ "#" ++ p.role ++ "#" ++
    p.refereeId.getD "" ++ "#" ++ toString p.iat ++ "#" ++ toString p.exp ++
    "#" ++ p.iss ++ "#" ++ p.aud

/-- A signed token: payload plus signature segment. -/
structure Token where
  payload : Payload
  sig : String
deriving Repr, DecidableEq

/-- The two error names of jsonwebtoken that authService.js distinguishes. -/
inductive JwtError where
  | jsonWebTokenError
  | tokenExpiredError
deriving Repr, DecidableEq

/-- Model of `jwt.verify(token, secret, { ignoreExpiration })`: checks the
signature, then (unless ignored) rejects when `now ≥ payload.exp`. -/
def jwtVerify (secret : String) (now : Nat) (ignoreExpiration : Bool)
    (t : Token) : Except JwtError Payload :=
  if t.sig ≠ macSign secret t.payload then
    .error .jsonWebTokenError
  else if !ignoreExpiration && decide (now ≥ t.payload.exp) then
    .error .tokenExpiredError
  else
    .ok t.payload

/-- authService.js `generateJWT(user)`: payload from user.id, user.email,
user.role, user.referee_id and `iat = now`; `jwt.sign` adds
`exp = iat + expiresIn`, issuer `sgad-auth-service`, audience
`sgad-system`.  (Neither SELECT of database.js includes `referee_id`, so
at every call site `refereeId` is `none`/undefined.) -/
def generateJWT (cfg : AuthConfig) (id email role : String)
    (refereeId : Option String) (now : Nat) : Token :=
  let payload : Payload :=
    { userId := id, email := email, role := role, refereeId := refereeId,
      iat := now, exp := now + cfg.expiresInSeconds,
      iss := "sgad-auth-service", aud := "sgad-system" }
  { payload := payload, sig := macSign cfg.secret payload }

/-- The `userData` object built by `loginUser`.  The SELECT of
`findUserByEmail` does not include referee_id, license_number,
specialties or certification_level, so those properties of the row are
undefined (`none`). -/
structure LoginUserData where
  id : String
  email : String
  role : String
  firstName : String
  lastName : String
  phone : String
  refereeId : Option String
  licenseNumber : Option String
  specialties : Option String
  certificationLevel : Option String
deriving Repr, DecidableEq

def loginUserData (u : User) : LoginUserData :=
  { id := u.id, email := u.email, role := u.role, firstName := u.first_name,
    lastName := u.last_name, phone := u.phone,
    refereeId := none, licenseNumber := none, specialties := none,
    certificationLevel := none }

/-- Successful result of `loginUser`: sanitized user data, the token and
`expiresIn` (the configured lifetime). -/
structure LoginOk where
  user : LoginUserData
  token : Token
  expiresIn : Nat
deriving Repr, DecidableEq

/-- The try-block of authService.js `loginUser`, before the catch-block
message mapping. -/
def loginUserTry (cfg : AuthConfig) (db : DB) (now : Nat)
    (email password : String) : Except String LoginOk :=
  match findUserByEmail db (jsTrim (jsToLowerCase email)) with
  | none => .error "INVALID_CREDENTIALS"
  | some user =>
    if !(bcryptCompare password user.password_hash) then
      .error "INVALID_CREDENTIALS"
    else if !user.is_active then
      .error "USER_INACTIVE"
    else
      match updateLastLogin db user.id with
      | .error e => .error e
      | .ok () =>
        .ok { user := loginUserData user,
              token := generateJWT cfg user.id user.email user.role none now,
              expiresIn := cfg.expiresInSeconds }

/-- authService.js `loginUser`: the try-block composed with the
catch-block that maps `INVALID_CREDENTIALS` to
"Email o contraseña incorrectos", `USER_INACTIVE` to
"Usuario inactivo. Contacta al administrador" and everything else to
"Error al procesar el login". -/
def loginUser (cfg : AuthConfig) (db : DB) (now : Nat)
    (email password : String) : Except String LoginOk :=
  match loginUserTry cfg db now email password with
  | .ok r => .ok r
  | .error e =>
    if e == "INVALID_CREDENTIALS" then
      .error "Email o contraseña incorrectos"
    else if e == "USER_INACTIVE" then
      .error "Usuario inactivo. Contacta al administrador"
    else
      .error "Error al procesar el login"

/-- The `userData` object built by `verifyToken`.  The SELECT of
`findUserById` does not include referee_id, license_number or
specialties, so those properties are undefined (`none`); unlike the
login projection there is no certificationLevel property at all. -/
structure VerifyUserData where
  id : String
  email : String
  role : String
  firstName : String
  lastName : String
  phone : String
  refereeId : Option String
  licenseNumber : Option String
  specialties : Option String
deriving Repr, DecidableEq

def verifyUserData (r : IdRow) : VerifyUserData :=
  { id := r.id, email := r.email, role := r.role, firstName := r.first_name,
    lastName := r.last_name, phone := r.phone,
    refereeId := none, licenseNumber := none, specialties := none }

/-- Successful result of `verifyToken`. -/
structure VerifyOk where
  user : VerifyUserData
  tokenValid : Bool
deriving Repr, DecidableEq

/-- authService.js `verifyToken`, with the catch-block message mapping
applied inline: JsonWebTokenError ↦ "Token inválido", TokenExpiredError ↦
"Token expirado", USER_NOT_FOUND ↦ "Usuario no encontrado",
USER_INACTIVE ↦ "Usuario inactivo". -/
def verifyToken (cfg : AuthConfig) (db : DB) (now : Nat) (t : Token) :
    Except String VerifyOk :=
  match jwtVerify cfg.secret now false t with
  | .error .jsonWebTokenError => .error "Token inválido"
  | .error .tokenExpiredError => .error "Token expirado"
  | .ok decoded =>
    match findUserById db decoded.userId with
    | none => .error "Usuario no encontrado"
    | some user =>
      if !user.is_active then .error "Usuario inactivo"
      else .ok { user := verifyUserData user, tokenValid := true }

/-- Successful result of `refreshToken`. -/
structure RefreshOk where
  token : Token
  expiresIn : Nat
deriving Repr, DecidableEq

/-- authService.js `refreshToken`: `jwt.verify` with
`ignoreExpiration: true`, subject re-resolution by id, then a new token
from the current row; the catch-block maps every failure (bad signature,
missing or inactive user) to the single message
"Error al refrescar el token". -/
def refreshToken (cfg : AuthConfig) (db : DB) (now : Nat) (t : Token) :
    Except String RefreshOk :=
  match jwtVerify cfg.secret now true t with
  | .error _ => .error "Error al refrescar el token"
  | .ok decoded =>
    match findUserById db decoded.userId with
    | none => .error "Error al refrescar el token"
    | some user =>
      if !user.is_active then .error "Error al refrescar el token"
      else .ok { token := generateJWT cfg user.id user.email user.role none now,
                 expiresIn := cfg.expiresInSeconds }

/-- authService.js: the `roleHierarchy` object lookup with its `|| 0`
default: presidente 3, administrador 2, arbitro 1, anything else 0. -/
def roleHierarchy (role : String) : Nat :=
  if role == "presidente" then 3
  else if role == "administrador" then 2
  else if role == "arbitro" then 1
  else 0

/-- authService.js `validatePermissions(user, requiredRole)`; `user.role`
is the only field of `user` consulted, so the model takes the role
string. -/
def validatePermissions (userRole requiredRole : String) : Bool :=
  decide (roleHierarchy userRole ≥ roleHierarchy requiredRole)

/-- Outcome of a middleware gate: call `next()` or respond with an HTTP
status, an `error` field and an optional `message` field. -/
inductive GateOutcome where
  | next
  | respond (status : Nat) (error : String) (message : Option String)
deriving Repr, DecidableEq

/-- authMiddleware.js `requireRole(allowedRoles)` applied to `req.user`
(the `allowedRoles` argument is already normalized to an array). -/
def requireRole (allowedRoles : List String)
    (reqUser : Option VerifyUserData) : GateOutcome :=
  match reqUser with
  | none =>
    .respond 401 "Usuario no autenticado"
      (some "Debes estar autenticado para acceder a esta ruta")
  | some u =>
    if !(allowedRoles.contains u.role) then
      .respond 403 "Permisos insuficientes"
        (some ("Se requiere uno de estos roles: " ++
          String.intercalate ", " allowedRoles))
    else .next

/-- JS `req.params[name]`: undefined when the parameter is absent. -/
def lookupParam (params : List (String × String)) (name : String) :
    Option String :=
  (params.find? (fun kv => kv.1 == name)).map (fun kv => kv.2)

/-- The request context consulted by `requireSelfOrAdmin`: the route
parameters and the principal attached by `requireAuth` (if any). -/
structure Req where
  params : List (String × String)
  user : Option VerifyUserData
deriving Repr

/-- authMiddleware.js `requireSelfOrAdmin(userIdParam)`: allow when the
principal's id equals the target path parameter or the principal's role
is administrador or presidente; otherwise 403. -/
def requireSelfOrAdmin (userIdParam : String) (req : Req) : GateOutcome :=
  match req.user with
  | none => .respond 401 "Usuario no autenticado" none
  | some u =>
    let targetUserId := lookupParam req.params userIdParam
    let isSelf := targetUserId == some u.id
    let isAdmin := (["administrador", "presidente"] : List String).contains u.role
    if !isSelf && !isAdmin then
      .respond 403 "Permisos insuficientes"
        (some "Solo puedes acceder a tus propios datos o ser administrador")
    else .next

/-! Concrete fixtures used by the closed theorems below. -/

def cfg0 : AuthConfig := { secret := "s3cr3t", expiresInSeconds := 86400 }

/-- A deactivated user whose stored hash matches the password "secreta". -/
def u1 : User :=
  { id := "1", email := "inactivo@sgad.com",
    password_hash := bcryptHash "secreta", role := "arbitro",
    first_name := "Ana", last_name := "Diaz", phone := "300",
    is_active := false, created_at := "2024-01-01" }

def db1 : DB := { users := [u1], lastLoginFails := false }

/-- A token validly issued (at t = 100) to user `u1` before deactivation. -/
def tok1 : Token := generateJWT cfg0 "1" "inactivo@sgad.com" "arbitro" none 100

/-- An active user whose stored hash matches the password "clave1". -/
def wu : User :=
  { id := "7", email := "activo@sgad.com",
    password_hash := bcryptHash "clave1", role := "arbitro",
    first_name := "Luis", last_name := "Rojas", phone := "301",
    is_active := true, created_at := "2024-01-01" }

def db2 : DB := { users := [wu], lastLoginFails := false }

/-- Same store as `db2` but the last-login UPDATE fails. -/
def db3 : DB := { users := [wu], lastLoginFails := true }

/-- A token issued (at t = 0) to user 7 while the stored role was
"presidente"; by refresh time the stored role is "arbitro". -/
def tokOld : Token := generateJWT cfg0 "7" "viejo@sgad.com" "presidente" none 0

/-- A principal with the given id and role (remaining fields blank). -/
def mkPrincipal (id role : String) : VerifyUserData :=
  { id := id, email := "", role := role, firstName := "", lastName := "",
    phone := "", refereeId := none, licenseNumber := none,
    specialties := none }

/-- The successful login result for `wu` on `db2` at t = 0. -/
def res0 : LoginOk :=
  { user := loginUserData wu,
    token := generateJWT cfg0 "7" "activo@sgad.com" "arbitro" none 0,
    expiresIn := 86400 }

theorem findUserByEmail_isActive (db : DB) (e : String) (u : User)
    (h : findUserByEmail db e = some u) : u.is_active = true := by
  unfold findUserByEmail at h
  have hp := List.find?_some h
  simp only [Bool.and_eq_true, beq_iff_eq] at hp
  exact hp.2

theorem findUserById_isActive (db : DB) (userId : String) (r : IdRow)
    (h : findUserById db userId = some r) : r.is_active = true := by
  unfold findUserById at h
  rw [Option.map_eq_some'] at h
  obtain ⟨a, ha, hfa⟩ := h
  have hp := List.find?_some ha
  simp only [Bool.and_eq_true, beq_iff_eq] at hp
  rw [← hfa]
  exact hp.2

theorem findUserById_eq_none_iff (db : DB) (userId : String) :
    findUserById db userId = none ↔
      ∀ u ∈ db.users, u.id = userId → u.is_active = false := by
  unfold findUserById
  rw [Option.map_eq_none', List.find?_eq_none]
  constructor
  · intro h u hu hid
    have := h u hu
    simp only [Bool.and_eq_true, beq_iff_eq, not_and] at this
    have := this hid
    simp only [Bool.not_eq_true] at this
    exact this
  · intro h u hu
    simp only [Bool.and_eq_true, beq_iff_eq, not_and]
    intro hid
    simp [h u hu hid]

/-- C1: For a stored user whose password matches but whose active flag is
false, `loginUser` does NOT fail with the inactive-account error: because
`findUserByEmail` filters on `is_active = true`, the lookup misses and the
login fails with the invalid-credentials error, the same classification
as unknown email or password mismatch. -/
theorem loginUser_inactive_misclassified :
    u1.is_active = false ∧
    bcryptCompare "secreta" u1.password_hash = true ∧
    db1.users = [u1] ∧
    findUserByEmail db1 (jsTrim (jsToLowerCase "inactivo@sgad.com")) = none ∧
    loginUser cfg0 db1 0 "inactivo@sgad.com" "secreta" =
      .error "Email o contraseña incorrectos" ∧
    "Email o contraseña incorrectos" ≠
      "Usuario inactivo. Contacta al administrador" := by
  decide

/-- C2: a deactivated user's still-unexpired, validly signed token is
rejected by `verifyToken` with the not-found error ("Usuario no
encontrado"), not the inactive error ("Usuario inactivo"): the
`is_active = true` filter of `findUserById` makes the dedicated
inactive branch unreachable. -/
theorem verifyToken_inactive_misclassified :
    u1.is_active = false ∧
    db1.users = [u1] ∧
    tok1.payload.userId = u1.id ∧
    tok1.sig = macSign cfg0.secret tok1.payload ∧
    200 < tok1.payload.exp ∧
    verifyToken cfg0 db1 200 tok1 = .error "Usuario no encontrado" ∧
    "Usuario no encontrado" ≠ "Usuario inactivo" := by
  decide

/-- C3: `validatePermissions` compares the hierarchy levels (arbitro 1,
administrador 2, presidente 3, anything else 0) with ≥, and a held role
of level 0 is denied against every real role (deny-by-default). -/
theorem validatePermissions_spec :
    (∀ held required : String,
        validatePermissions held required =
          decide (roleHierarchy held ≥ roleHierarchy required))
    ∧ roleHierarchy "arbitro" = 1
    ∧ roleHierarchy "administrador" = 2
    ∧ roleHierarchy "presidente" = 3
    ∧ (∀ r : String, r ≠ "arbitro" → r ≠ "administrador" →
        r ≠ "presidente" → roleHierarchy r = 0)
    ∧ (∀ held required : String, roleHierarchy held = 0 →
        required ∈ (["arbitro", "administrador", "presidente"] : List String) →
        validatePermissions held required = false) := by
  refine ⟨fun _ _ => rfl, rfl, rfl, rfl, ?_, ?_⟩
  · intro r h1 h2 h3
    unfold roleHierarchy
    simp [h1, h2, h3]
  · intro held required h0 hreq
    unfold validatePermissions
    rw [h0]
    simp only [List.mem_cons, List.not_mem_nil, or_false] at hreq
    rcases hreq with h | h | h <;> subst h <;> decide

/-- C3 witness: the unmapped role "gerente" resolves to level 0 and is
denied against "arbitro". -/
theorem validatePermissions_spec_witness :
    roleHierarchy "gerente" = 0 ∧
    validatePermissions "gerente" "arbitro" = false :=
  ⟨validatePermissions_spec.2.2.2.2.1 "gerente" (by decide) (by decide)
      (by decide),
   validatePermissions_spec.2.2.2.2.2 "gerente" "arbitro" (by decide)
      (by decide)⟩

/-- C4: for a token whose signature validates, `refreshToken` never
consults the expiry: it fails (with the single refresh-failure message)
exactly when the subject lookup misses, i.e. exactly when every user with
the token's subject id is missing or inactive, and otherwise — even when
`now` is past the token's `exp` — returns a new token signed over the
subject's currently stored role with `iat = now` and a fresh
`exp = now + lifetime`. -/
theorem refreshToken_spec (cfg : AuthConfig) (db : DB) (now : Nat)
    (t : Token) (hsig : t.sig = macSign cfg.secret t.payload) :
    (refreshToken cfg db now t =
      match findUserById db t.payload.userId with
      | none => .error "Error al refrescar el token"
      | some u =>
        .ok { token := generateJWT cfg u.id u.email u.role none now,
              expiresIn := cfg.expiresInSeconds })
    ∧ (findUserById db t.payload.userId = none ↔
        ∀ u ∈ db.users, u.id = t.payload.userId → u.is_active = false)
    ∧ (∀ u, findUserById db t.payload.userId = some u →
        now ≥ t.payload.exp →
        refreshToken cfg db now t =
          .ok { token := generateJWT cfg u.id u.email u.role none now,
                expiresIn := cfg.expiresInSeconds } ∧
        (generateJWT cfg u.id u.email u.role none now).payload.role = u.role ∧
        (generateJWT cfg u.id u.email u.role none now).payload.exp =
          now + cfg.expiresInSeconds ∧
        (generateJWT cfg u.id u.email u.role none now).payload.iat = now) := by
  have hmain : refreshToken cfg db now t =
      match findUserById db t.payload.userId with
      | none => .error "Error al refrescar el token"
      | some u =>
        .ok { token := generateJWT cfg u.id u.email u.role none now,
              expiresIn := cfg.expiresInSeconds } := by
    unfold refreshToken jwtVerify
    rw [hsig]
    simp only [ne_eq, not_true_eq_false, if_false, Bool.not_true,
      Bool.false_and, Bool.false_eq_true, if_neg, ite_false]
    cases hfind : findUserById db t.payload.userId with
    | none => simp
    | some u =>
      have hact := findUserById_isActive db t.payload.userId u hfind
      simp [hact]
  refine ⟨hmain, findUserById_eq_none_iff db t.payload.userId, ?_⟩
  intro u hu _
  rw [hmain, hu]
  exact ⟨rfl, rfl, rfl, rfl⟩

/-- C4 witness: an expired token (exp = 86400, refreshed at 100000)
carrying the stale role "presidente" is refreshed into a token with the
currently stored role "arbitro" and a fresh expiry. -/
theorem refreshToken_spec_witness :
    (100000 ≥ tokOld.payload.exp) ∧
    refreshToken cfg0 db2 100000 tokOld =
      .ok { token := generateJWT cfg0 "7" "activo@sgad.com" "arbitro" none
              100000,
            expiresIn := 86400 } ∧
    tokOld.payload.role = "presidente" :=
  ⟨by decide,
   ((refreshToken_spec cfg0 db2 100000 tokOld rfl).2.2 (User.toIdRow wu)
      (by decide) (by decide)).1,
   by decide⟩

/-- C5: with a principal attached, `requireSelfOrAdmin` allows exactly
when the path parameter equals the principal's id or the role is
administrador or presidente, and otherwise responds 403
"Permisos insuficientes"; in particular path userId "42" is allowed for
id "42"/arbitro, denied for id "7"/arbitro, allowed for
id "7"/administrador. -/
theorem requireSelfOrAdmin_spec :
    (∀ (p : String) (params : List (String × String)) (u : VerifyUserData),
        requireSelfOrAdmin p { params := params, user := some u } =
          if (lookupParam params p == some u.id) ||
              ((u.role == "administrador") || (u.role == "presidente")) then
            .next
          else
            .respond 403 "Permisos insuficientes"
              (some "Solo puedes acceder a tus propios datos o ser administrador"))
    ∧ requireSelfOrAdmin "userId"
        { params := [("userId", "42")],
          user := some (mkPrincipal "42" "arbitro") } = .next
    ∧ requireSelfOrAdmin "userId"
        { params := [("userId", "42")],
          user := some (mkPrincipal "7" "arbitro") } =
        .respond 403 "Permisos insuficientes"
          (some "Solo puedes acceder a tus propios datos o ser administrador")
    ∧ requireSelfOrAdmin "userId"
        { params := [("userId", "42")],
          user := some (mkPrincipal "7" "administrador") } = .next := by
  refine ⟨?_, by decide, by decide, by decide⟩
  intro p params u
  unfold requireSelfOrAdmin
  simp only [List.contains_cons, List.contains_nil, Bool.or_false]
  cases hs : (lookupParam params p == some u.id) <;>
    cases h1 : (u.role == "administrador") <;>
    cases h2 : (u.role == "presidente") <;>
    simp [hs, h1, h2]

/-- C10: `requireRole` allows exactly literal membership of the
principal's role in the configured list; the role hierarchy is not
consulted, so presidente (hierarchy level above administrador) is denied
by a gate allowing only administrador. -/
theorem requireRole_literal_membership :
    (∀ (roles : List String) (u : VerifyUserData),
        requireRole roles (some u) =
          if roles.contains u.role then .next
          else
            .respond 403 "Permisos insuficientes"
              (some ("Se requiere uno de estos roles: " ++
                String.intercalate ", " roles)))
    ∧ roleHierarchy "presidente" > roleHierarchy "administrador"
    ∧ requireRole ["administrador"] (some (mkPrincipal "9" "presidente")) =
        .respond 403 "Permisos insuficientes"
          (some "Se requiere uno de estos roles: administrador") := by
  refine ⟨?_, by decide, by decide⟩
  intro roles u
  unfold requireRole
  cases h : roles.contains u.role <;> simp at h <;> simp [h]

/-- C6: a login whose email resolves to no stored user and a login whose
email resolves to a user with a mismatching password produce the same
error with the identical message "Email o contraseña incorrectos". -/
theorem loginUser_enumeration_resistant (cfg : AuthConfig) (db : DB)
    (now₁ now₂ : Nat) (e₁ p₁ e₂ p₂ : String) (u : User)
    (h₁ : findUserByEmail db (jsTrim (jsToLowerCase e₁)) = none)
    (h₂ : findUserByEmail db (jsTrim (jsToLowerCase e₂)) = some u)
    (h₃ : bcryptCompare p₂ u.password_hash = false) :
    loginUser cfg db now₁ e₁ p₁ = .error "Email o contraseña incorrectos" ∧
    loginUser cfg db now₂ e₂ p₂ = .error "Email o contraseña incorrectos" ∧
    loginUser cfg db now₁ e₁ p₁ = loginUser cfg db now₂ e₂ p₂ := by
  have hrun₁ : loginUser cfg db now₁ e₁ p₁ =
      .error "Email o contraseña incorrectos" := by
    unfold loginUser loginUserTry
    rw [h₁]
    rfl
  have hrun₂ : loginUser cfg db now₂ e₂ p₂ =
      .error "Email o contraseña incorrectos" := by
    unfold loginUser loginUserTry
    rw [h₂]
    simp [h₃]
  exact ⟨hrun₁, hrun₂, hrun₁.trans hrun₂.symm⟩

/-- C6 witness: unknown email "nadie@sgad.com" and known email
"activo@sgad.com" with a wrong password yield the identical error. -/
theorem loginUser_enumeration_resistant_witness :
    loginUser cfg0 db2 0 "nadie@sgad.com" "clave1" =
      .error "Email o contraseña incorrectos" ∧
    loginUser cfg0 db2 5 "activo@sgad.com" "equivocada" =
      .error "Email o contraseña incorrectos" ∧
    loginUser cfg0 db2 0 "nadie@sgad.com" "clave1" =
      loginUser cfg0 db2 5 "activo@sgad.com" "equivocada" :=
  loginUser_enumeration_resistant cfg0 db2 0 5 "nadie@sgad.com" "clave1"
    "activo@sgad.com" "equivocada" wu (by decide) (by decide) (by decide)

/-- C7 counterexample: email lookup, password check and active check all
succeed, only the last-login UPDATE fails — and the login aborts with
"Error al procesar el login" instead of returning the user and token. -/
theorem loginUser_lastLogin_aborts_cex :
    findUserByEmail db3 (jsTrim (jsToLowerCase "activo@sgad.com")) =
      some wu ∧
    bcryptCompare "clave1" wu.password_hash = true ∧
    wu.is_active = true ∧
    db3.lastLoginFails = true ∧
    loginUser cfg0 db3 0 "activo@sgad.com" "clave1" =
      .error "Error al procesar el login" := by
  decide

/-- C7 amended: when email lookup and password check succeed but the
last-login UPDATE fails, `loginUser` aborts with the generic
"Error al procesar el login" instead of returning the principal and
token. -/
theorem loginUser_lastLogin_aborts (cfg : AuthConfig) (db : DB) (now : Nat)
    (email password : String) (u : User)
    (h₁ : findUserByEmail db (jsTrim (jsToLowerCase email)) = some u)
    (h₂ : bcryptCompare password u.password_hash = true)
    (h₃ : db.lastLoginFails = true) :
    loginUser cfg db now email password =
      .error "Error al procesar el login" := by
  have hact := findUserByEmail_isActive db (jsTrim (jsToLowerCase email)) u h₁
  unfold loginUser loginUserTry
  rw [h₁]
  simp [h₂, hact, updateLastLogin, h₃]

/-- C7 amended witness: the abort at the concrete store `db3`. -/
theorem loginUser_lastLogin_aborts_witness :
    loginUser cfg0 db3 0 "activo@sgad.com" "clave1" =
      .error "Error al procesar el login" :=
  loginUser_lastLogin_aborts cfg0 db3 0 "activo@sgad.com" "clave1" wu
    (by decide) (by decide) (by decide)

/-- C8: for a user that is still active and resolvable by id, verifying a
token freshly issued for that user (within its lifetime) succeeds and
returns user data whose id, email and role equal the user record's. -/
theorem verify_issue_roundtrip (cfg : AuthConfig) (db : DB) (u : User)
    (now tv : Nat)
    (hres : findUserById db u.id = some u.toIdRow)
    (hact : u.is_active = true)
    (hexp : tv < now + cfg.expiresInSeconds) :
    verifyToken cfg db tv (generateJWT cfg u.id u.email u.role none now) =
      .ok { user := verifyUserData u.toIdRow, tokenValid := true } ∧
    (verifyUserData u.toIdRow).id = u.id ∧
    (verifyUserData u.toIdRow).email = u.email ∧
    (verifyUserData u.toIdRow).role = u.role := by
  refine ⟨?_, rfl, rfl, rfl⟩
  have hexp' : decide (tv ≥ now + cfg.expiresInSeconds) = false :=
    decide_eq_false (Nat.not_le.mpr hexp)
  simp [verifyToken, jwtVerify, generateJWT, hexp', hres, User.toIdRow, hact]

/-- C8 witness: round trip at the concrete active user `wu`. -/
theorem verify_issue_roundtrip_witness :
    verifyToken cfg0 db2 100
        (generateJWT cfg0 wu.id wu.email wu.role none 0) =
      .ok { user := verifyUserData wu.toIdRow, tokenValid := true } ∧
    (verifyUserData wu.toIdRow).id = wu.id ∧
    (verifyUserData wu.toIdRow).email = wu.email ∧
    (verifyUserData wu.toIdRow).role = wu.role :=
  verify_issue_roundtrip cfg0 db2 wu 0 100 (by decide) (by decide) (by decide)

/-- C9: no output of the core carries the stored password hash: the login
and verify projections are invariant under the stored hash, every
successful login or verify result factors through those projections, and
the token payload consists exactly of userId/email/role/refereeId/iat/
exp/iss/aud — no hash field. -/
theorem no_hash_in_outputs :
    (∀ (u : User) (h : String),
        loginUserData { u with password_hash := h } = loginUserData u)
    ∧ (∀ (u : User) (h : String),
        User.toIdRow { u with password_hash := h } = User.toIdRow u)
    ∧ (∀ (cfg : AuthConfig) (db : DB) (now : Nat) (email password : String)
          (res : LoginOk),
        loginUser cfg db now email password = .ok res →
        ∃ u, findUserByEmail db (jsTrim (jsToLowerCase email)) = some u ∧
          res.user = loginUserData u ∧
          res.token = generateJWT cfg u.id u.email u.role none now)
    ∧ (∀ (cfg : AuthConfig) (db : DB) (now : Nat) (t : Token)
          (res : VerifyOk),
        verifyToken cfg db now t = .ok res →
        ∃ r, findUserById db t.payload.userId = some r ∧
          res.user = verifyUserData r)
    ∧ (∀ (cfg : AuthConfig) (id email role : String) (rid : Option String)
          (now : Nat),
        (generateJWT cfg id email role rid now).payload =
          { userId := id, email := email, role := role, refereeId := rid,
            iat := now, exp := now + cfg.expiresInSeconds,
            iss := "sgad-auth-service", aud := "sgad-system" }) := by
  refine ⟨fun _ _ => rfl, fun _ _ => rfl, ?_, ?_, fun _ _ _ _ _ _ => rfl⟩
  · intro cfg db now email password res h
    unfold loginUser at h
    cases hTry : loginUserTry cfg db now email password with
    | error e =>
      simp only [hTry] at h
      split at h <;> simp at h
      split at h <;> simp at h
    | ok r =>
      simp only [hTry, Except.ok.injEq] at h
      subst h
      unfold loginUserTry at hTry
      cases hfind : findUserByEmail db (jsTrim (jsToLowerCase email)) with
      | none => simp only [hfind] at hTry; simp at hTry
      | some u =>
        simp only [hfind] at hTry
        refine ⟨u, rfl, ?_⟩
        split at hTry
        · simp at hTry
        · split at hTry
          · simp at hTry
          · cases hupd : updateLastLogin db u.id with
            | error e2 => simp only [hupd] at hTry; simp at hTry
            | ok u2 =>
              simp only [hupd, Except.ok.injEq] at hTry
              rw [← hTry]
              exact ⟨rfl, rfl⟩
  · intro cfg db now t res h
    unfold verifyToken at h
    cases hjwt : jwtVerify cfg.secret now false t with
    | error e => cases e <;> simp only [hjwt] at h <;> simp at h
    | ok decoded =>
      have hdec : decoded = t.payload := by
        unfold jwtVerify at hjwt
        split at hjwt
        · simp at hjwt
        · split at hjwt
          · simp at hjwt
          · simp only [Except.ok.injEq] at hjwt
            exact hjwt.symm
      subst hdec
      simp only [hjwt] at h
      cases hfind : findUserById db t.payload.userId with
      | none => simp only [hfind] at h; simp at h
      | some r2 =>
        simp only [hfind] at h
        refine ⟨r2, rfl, ?_⟩
        split at h
        · simp at h
        · simp only [Except.ok.injEq] at h
          rw [← h]

/-- C9 witness: the successful login of `wu` on `db2` factors through the
hash-free projection and the hash-free token payload. -/
theorem no_hash_in_outputs_witness :
    ∃ u, findUserByEmail db2 (jsTrim (jsToLowerCase "activo@sgad.com")) =
        some u ∧
      res0.user = loginUserData u ∧
      res0.token = generateJWT cfg0 u.id u.email u.role none 0 :=
  no_hash_in_outputs.2.2.1 cfg0 db2 0 "activo@sgad.com" "clave1" res0
    (by decide)
